import Mathlib

/-!
Shallow embedding of `src/main.rs` of the `rust_openssl_mTLS` repository:
a mutual-TLS server whose core is

* `is_self_signed` — delegates to the trust engine's issuer check
  (`X509Ref::issued`, i.e. `X509_check_issued`) of a certificate against
  itself;
* `build_acceptor_from_pkcs12` — builds the acceptor configuration from a
  parsed PKCS#12 bundle, filtering self-signed certificates out of the
  extra chain;
* `verifier_cb` — the depth-aware verification callback enforcing the
  `OU=TrustedDevices` policy on the leaf certificate only;
* `handle_conn` — the per-connection handler (handshake, optional read,
  fixed HTTP response, best-effort shutdown).

External library primitives (OpenSSL's path validation, the ASN.1-to-UTF-8
conversion, the async socket operations) are modelled by their observable
results: a certificate carries the verdict of `X509_check_issued(cert, cert)`
as data, a subject-name entry carries the result of `as_utf8()` as an
`Option String` (`none` when the bytes are not valid text), and a connection
environment carries the outcome of each socket operation.
-/

namespace MTLS

/-- Verdict type of the trust engine's issuer check, mirroring
`openssl::x509::X509VerifyResult`: `OK` is `X509_V_OK`, `failed c` any
other `X509_V_ERR_*` code `c`. -/
inductive X509VerifyResult where
  | OK : X509VerifyResult
  | failed (code : Nat) : X509VerifyResult
deriving DecidableEq

/-- One entry of an X.509 subject (or issuer) name: its attribute-type NID
and the result of the library conversion `e.data().as_utf8()` — `some s`
when the ASN.1 bytes decode to the text `s`, `none` when they are not
valid text (the Rust call returns `Err`). -/
structure X509NameEntry where
  nid : Nat
  dataUtf8 : Option String
deriving DecidableEq

/-- An X.509 name: the ordered list of its entries. -/
structure X509Name where
  entries : List X509NameEntry
deriving DecidableEq

/-- NID constants used by the program (OpenSSL numeric object identifiers). -/
def Nid.COMMONNAME : Nat := 13

/-- NID of the OrganizationalUnit attribute. -/
def Nid.ORGANIZATIONALUNITNAME : Nat := 18

/-- A certificate, with the attributes the program consumes: subject name,
issuer name, and the trust engine's verdict for `cert.issued(cert)`
(`X509_check_issued` of the certificate against itself). The verdict is
carried as data because the issuer-matching algorithm itself is the
external trust engine's: it compares the issuer/subject names and the
authority-key-identifier linkage, so it is not a function of the raw
name bytes alone. -/
structure X509 where
  subject_name : X509Name
  issuer_name : X509Name
  issued_self : X509VerifyResult
deriving DecidableEq

/-- Iterator `name.entries_by_nid(nid)` of `X509NameRef`: the entries of
the name whose attribute type is `nid`, in order. -/
def X509Name.entries_by_nid (name : X509Name) (nid : Nat) : List X509NameEntry :=
  name.entries.filter (fun e => e.nid == nid)

/-- The required OU marker, `pub const TRUST_DEVICES` in the source. -/
def TRUST_DEVICES : String := "TrustedDevices"

/-- Embeds `fn is_self_signed(cert: &X509Ref) -> bool`:
`cert.issued(cert) == X509VerifyResult::OK`. -/
def is_self_signed (cert : X509) : Bool :=
  cert.issued_self == X509VerifyResult.OK

/-- The naive check the spec contrasts `is_self_signed` with (written from
the spec's words, not from the source): byte-equality of the subject and
issuer name fields. -/
def self_signed_by_name_equality (cert : X509) : Bool :=
  cert.subject_name == cert.issuer_name

/-- A private key from the PKCS#12 bundle (opaque to the program: only
moved into the builder). -/
structure PKey where
  keyId : Nat
deriving DecidableEq

/-- Result of `Pkcs12::parse2`, mirroring `ParsedPkcs12_2`:
`pkey: Option<PKey<Private>>`, `cert: Option<X509>`, `ca: Option<Stack<X509>>`.
The stack is modelled as a list in stack order (its `pop` removes the last
element). -/
structure ParsedPkcs12 where
  pkey : Option PKey
  cert : Option X509
  ca : Option (List X509)
deriving DecidableEq

/-- The acceptor-builder state the assembler writes: the installed private
key, the installed end-entity certificate, and the extra chain certificates
added by `add_extra_chain_cert`, in order of addition. -/
structure SslAcceptorBuilder where
  private_key : Option PKey
  certificate : Option X509
  extra_chain_certs : List X509
deriving DecidableEq

/-- Error type of the assembler; the source produces `anyhow!` errors
distinguished by their message text. -/
inductive BuildError where
  | missing (msg : String) : BuildError
deriving DecidableEq

/-- Embeds the `for cert_ref in parsed.ca.iter_mut() { ... }` loop of
`build_acceptor_from_pkcs12`. `parsed.ca` is an `Option<Stack<X509>>`, so
`iter_mut()` yields the stack itself at most once (not its elements);
inside the single iteration `cert_ref.pop()` removes and returns the
stack's LAST element, which is skipped when self-signed and otherwise
passed to `add_extra_chain_cert` (an append to the extra chain; its
library-internal failure mode is not modelled). -/
def add_ca_certs_loop (builder : SslAcceptorBuilder) (ca : Option (List X509)) :
    SslAcceptorBuilder :=
  match ca with
  | none => builder
  | some stack =>
    match stack.getLast? with
    | none => builder
    | some cr =>
      if is_self_signed cr then builder
      else { builder with extra_chain_certs := builder.extra_chain_certs ++ [cr] }

/-- Embeds `build_acceptor_from_pkcs12` from the parsed bundle onward (the
file read, the DER parse and the password-based `parse2` are external OS and
library operations): fail with "PKCS#12 has no private key" when the bundle
has no key, with "PKCS#12 has no end-entity certificate" when it has no
certificate; otherwise install key and certificate in a fresh builder and
run the CA loop. -/
def build_acceptor_from_pkcs12 (parsed : ParsedPkcs12) :
    Except BuildError SslAcceptorBuilder :=
  match parsed.pkey with
  | none => Except.error (BuildError.missing "PKCS#12 has no private key")
  | some pkey =>
    match parsed.cert with
    | none => Except.error (BuildError.missing "PKCS#12 has no end-entity certificate")
    | some cert =>
      Except.ok (add_ca_certs_loop
        { private_key := some pkey, certificate := some cert, extra_chain_certs := [] }
        parsed.ca)

/-- Verification context handed to the callback, mirroring the parts of
`X509StoreContextRef` the program reads: the peer chain (when available),
the certificate currently under examination, and the error depth
(0 = leaf). -/
structure X509StoreContext where
  chain : Option (List X509)
  current_cert : Option X509
  error_depth : Nat
deriving DecidableEq

/-- The predicate applied to each OU entry in `verifier_cb`:
`matches!(e.data().as_utf8(), Ok(s) if s == TRUST_DEVICES)` — true exactly
when the entry's value decodes to valid text equal to `TRUST_DEVICES`;
an undecodable value (the `Err` case) never matches. -/
def entry_is_trusted (e : X509NameEntry) : Bool :=
  match e.dataUtf8 with
  | some s => s == TRUST_DEVICES
  | none => false

/-- Embeds `fn verifier_cb(preverified: bool, x509_ctx: &mut X509StoreContextRef) -> bool`.
The source first logs the chain and the current certificate's CN (pure
diagnostics, no effect on the result, omitted here), then:
reject when `!preverified`; accept when `error_depth != 0` (logging only);
at depth 0, reject defensively when no current certificate is available,
otherwise return whether some OU entry of the leaf's subject matches
`TRUST_DEVICES` exactly. -/
def verifier_cb (preverified : Bool) (ctx : X509StoreContext) : Bool :=
  if !preverified then
    false
  else if ctx.error_depth != 0 then
    true
  else
    match ctx.current_cert with
    | none => false
    | some leaf =>
      (X509Name.entries_by_nid leaf.subject_name Nid.ORGANIZATIONALUNITNAME).any
        entry_is_trusted

/-- An I/O failure of a socket operation (opaque error value). -/
structure NetError where
  code : Nat
deriving DecidableEq

/-- Outcomes of the external socket operations one connection performs, in
program order: the async handshake (`accept`), the optional request read
(number of bytes on success), the two `write_all` calls, and the final
shutdown. -/
structure ConnEnv where
  handshake : Except NetError Unit
  readRes : Except NetError Nat
  writeResp : Except NetError Unit
  writeBody : Except NetError Unit
  shutdownRes : Except NetError Unit

/-- The fixed response body `b"ok\n"`. -/
def connBody : String := "ok\n"

/-- The response head built by `format!` from `body.len()` (the body is
ASCII, so its UTF-8 byte length equals its character length). -/
def connResp : String :=
  "HTTP/1.1 200 OK\r\nContent-Length: " ++ toString connBody.length ++
    "\r\nContent-Type: text/plain\r\nConnection: close\r\n\r\n"

/-- Embeds `handle_conn`: the result returned to the accept loop together
with the chunks successfully written to the peer. The handshake error
propagates (`?`); the read's error is discarded by `unwrap_or(0)`; each
`write_all` error propagates; the shutdown's outcome is discarded by
`.ok()`. -/
def handle_conn (env : ConnEnv) : Except NetError Unit × List String :=
  match env.handshake with
  | Except.error e => (Except.error e, [])
  | Except.ok _ =>
    let _n : Nat := match env.readRes with
      | Except.ok n => n
      | Except.error _ => 0
    match env.writeResp with
    | Except.error e => (Except.error e, [])
    | Except.ok _ =>
      match env.writeBody with
      | Except.error e => (Except.error e, [connResp])
      | Except.ok _ => (Except.ok (), [connResp, connBody])

/-- Whether an `Except` value is a success. -/
def exceptOk {ε α : Type} : Except ε α → Bool
  | Except.ok _ => true
  | Except.error _ => false

/-! Concrete instances used by witnesses and counterexamples. -/

/-- A subject entry carrying the required OU marker. -/
def ouEntryGood : X509NameEntry :=
  { nid := Nid.ORGANIZATIONALUNITNAME, dataUtf8 := some "TrustedDevices" }

/-- A leaf certificate whose subject is `CN=dev1, OU=TrustedDevices`. -/
def goodLeaf : X509 :=
  { subject_name :=
      { entries := [{ nid := Nid.COMMONNAME, dataUtf8 := some "dev1" }, ouEntryGood] },
    issuer_name := { entries := [{ nid := Nid.COMMONNAME, dataUtf8 := some "Device CA" }] },
    issued_self := X509VerifyResult.failed 20 }

/-- A depth-0 verification context presenting `goodLeaf`. -/
def goodLeafCtx : X509StoreContext :=
  { chain := none, current_cert := some goodLeaf, error_depth := 0 }

/-- A depth-1 verification context (intermediate certificate). -/
def ctxDepth1 : X509StoreContext :=
  { chain := none, current_cert := some goodLeaf, error_depth := 1 }

/-- A leaf certificate built from a given subject-entry list (issuer and
issued-self verdict arbitrary: the callback never reads them). -/
def mkLeaf (es : List X509NameEntry) : X509 :=
  { subject_name := { entries := es },
    issuer_name := { entries := [] },
    issued_self := X509VerifyResult.failed 20 }

/-- A depth-0 context presenting `mkLeaf es`. -/
def mkLeafCtx (es : List X509NameEntry) : X509StoreContext :=
  { chain := none, current_cert := some (mkLeaf es), error_depth := 0 }

/-! Helper lemmas. -/

lemma entry_is_trusted_iff (e : X509NameEntry) :
    entry_is_trusted e = true ↔ e.dataUtf8 = some TRUST_DEVICES := by
  rcases e with ⟨n, d⟩
  cases d <;> simp [entry_is_trusted]

lemma any_trusted_iff (es : List X509NameEntry) :
    ((es.filter (fun e => e.nid == Nid.ORGANIZATIONALUNITNAME)).any entry_is_trusted = true) ↔
      ∃ e ∈ es, e.nid = Nid.ORGANIZATIONALUNITNAME ∧ e.dataUtf8 = some TRUST_DEVICES := by
  simp [List.any_eq_true, List.mem_filter, entry_is_trusted_iff, and_assoc]

lemma verifier_cb_leaf_eval (ctx : X509StoreContext) (leaf : X509)
    (h : ctx.error_depth = 0) (hc : ctx.current_cert = some leaf) :
    verifier_cb true ctx =
      (leaf.subject_name.entries.filter
        (fun e => e.nid == Nid.ORGANIZATIONALUNITNAME)).any entry_is_trusted := by
  simp [verifier_cb, X509Name.entries_by_nid, h, hc]

lemma verifier_cb_mkLeafCtx (es : List X509NameEntry) :
    verifier_cb true (mkLeafCtx es) =
      (es.filter (fun e => e.nid == Nid.ORGANIZATIONALUNITNAME)).any entry_is_trusted := rfl

/-! Claim theorems. -/

/-- C1: with `preverified = true` at depth 0, the callback returns true iff
the current certificate is present and its subject has an OU entry whose
value is exactly the text `TrustedDevices`; with no current certificate at
depth 0 it returns false. -/
theorem verifier_cb_leaf_policy (ctx : X509StoreContext) (h : ctx.error_depth = 0) :
    (∀ leaf : X509, ctx.current_cert = some leaf →
      (verifier_cb true ctx = true ↔
        ∃ e ∈ leaf.subject_name.entries,
          e.nid = Nid.ORGANIZATIONALUNITNAME ∧ e.dataUtf8 = some TRUST_DEVICES)) ∧
    (ctx.current_cert = none → verifier_cb true ctx = false) := by
  constructor
  · intro leaf hleaf
    rw [verifier_cb_leaf_eval ctx leaf h hleaf]
    exact any_trusted_iff leaf.subject_name.entries
  · intro hnone
    simp [verifier_cb, h, hnone]

/-- Witness for C1: a leaf with subject `CN=dev1, OU=TrustedDevices` is
accepted at depth 0. -/
theorem verifier_cb_leaf_policy_witness : verifier_cb true goodLeafCtx = true :=
  ((verifier_cb_leaf_policy goodLeafCtx rfl).1 goodLeaf rfl).mpr
    ⟨ouEntryGood, by simp [goodLeaf], rfl, rfl⟩

/-- C2: with `preverified = false` the callback returns false at every
depth, whatever the context holds. -/
theorem verifier_cb_rejects_unverified (ctx : X509StoreContext) :
    verifier_cb false ctx = false := rfl

/-- C3: with `preverified = true` at nonzero depth the callback returns
true, never consulting the OU policy. -/
theorem verifier_cb_nonleaf_accepts (ctx : X509StoreContext) (h : ctx.error_depth ≠ 0) :
    verifier_cb true ctx = true := by
  simp [verifier_cb, h]

/-- Witness for C3: an intermediate certificate at depth 1 is accepted. -/
theorem verifier_cb_nonleaf_accepts_witness : verifier_cb true ctxDepth1 = true :=
  verifier_cb_nonleaf_accepts ctxDepth1 (by decide)

lemma any_trusted_filter_middle (l1 l2 : List X509NameEntry) (b : X509NameEntry)
    (hbf : entry_is_trusted b = false) :
    ((l1 ++ b :: l2).filter (fun e => e.nid == Nid.ORGANIZATIONALUNITNAME)).any
        entry_is_trusted =
      ((l1 ++ l2).filter (fun e => e.nid == Nid.ORGANIZATIONALUNITNAME)).any
        entry_is_trusted := by
  simp only [List.filter_append, List.filter_cons, List.any_append]
  by_cases hc : (b.nid == Nid.ORGANIZATIONALUNITNAME) = true
  · simp [hc, hbf]
  · simp [hc]

/-- C10: at depth 0 with `preverified = true`, an OU entry whose bytes do
not decode as text (`as_utf8` fails) never matches: inserting such an entry
anywhere in the subject leaves the decision unchanged, and the callback
returns true exactly when some entry with a decodable value is an OU equal
to `TrustedDevices`. The decision is a total Lean function of the subject
entries: no input makes it error. -/
theorem verifier_cb_invalid_utf8_ou_ignored (l1 l2 : List X509NameEntry)
    (b : X509NameEntry) (hb : b.dataUtf8 = none) :
    verifier_cb true (mkLeafCtx (l1 ++ b :: l2)) = verifier_cb true (mkLeafCtx (l1 ++ l2)) ∧
    (verifier_cb true (mkLeafCtx (l1 ++ b :: l2)) = true ↔
      ∃ e ∈ l1 ++ l2, e.nid = Nid.ORGANIZATIONALUNITNAME ∧ e.dataUtf8 = some TRUST_DEVICES) := by
  have hbf : entry_is_trusted b = false := by simp [entry_is_trusted, hb]
  have h1 : verifier_cb true (mkLeafCtx (l1 ++ b :: l2)) =
      verifier_cb true (mkLeafCtx (l1 ++ l2)) := by
    rw [verifier_cb_mkLeafCtx, verifier_cb_mkLeafCtx]
    exact any_trusted_filter_middle l1 l2 b hbf
  refine ⟨h1, ?_⟩
  rw [h1, verifier_cb_mkLeafCtx]
  exact any_trusted_iff (l1 ++ l2)

/-- A subject entry whose OU bytes are not valid text (`as_utf8` fails). -/
def ouEntryBad : X509NameEntry :=
  { nid := Nid.ORGANIZATIONALUNITNAME, dataUtf8 := none }

/-- Witness for C10: a leaf whose subject is an undecodable OU entry
followed by `OU=TrustedDevices` is decided exactly as without the
undecodable entry, and is accepted. -/
theorem verifier_cb_invalid_utf8_ou_ignored_witness :
    verifier_cb true (mkLeafCtx ([] ++ ouEntryBad :: [ouEntryGood])) =
        verifier_cb true (mkLeafCtx ([] ++ [ouEntryGood])) ∧
      verifier_cb true (mkLeafCtx ([] ++ ouEntryBad :: [ouEntryGood])) = true := by
  have h := verifier_cb_invalid_utf8_ou_ignored [] [ouEntryGood] ouEntryBad rfl
  exact ⟨h.1, h.2.mpr ⟨ouEntryGood, by simp, rfl, rfl⟩⟩

/-- A certificate whose subject and issuer names are byte-identical but
whose self-issuer check fails (as with an authority-key-identifier
mismatch, `X509_V_ERR_AKID_SKID_MISMATCH` = 30): a look-alike name is not
a cryptographic issuer relation. -/
def lookAlikeCert : X509 :=
  { subject_name := { entries := [{ nid := Nid.COMMONNAME, dataUtf8 := some "Look Alike CA" }] },
    issuer_name := { entries := [{ nid := Nid.COMMONNAME, dataUtf8 := some "Look Alike CA" }] },
    issued_self := X509VerifyResult.failed 30 }

/-- C6: `is_self_signed` is exactly the trust engine's issuer verification
of the certificate against itself reporting OK, and it is not equivalent
to byte-equality of the subject and issuer name fields. -/
theorem is_self_signed_is_issuer_verification :
    (∀ c : X509, is_self_signed c = true ↔ c.issued_self = X509VerifyResult.OK) ∧
    ¬ (∀ c : X509, is_self_signed c = self_signed_by_name_equality c) := by
  constructor
  · intro c
    simp [is_self_signed]
  · intro hall
    have h := hall lookAlikeCert
    simp [is_self_signed, self_signed_by_name_equality, lookAlikeCert] at h

/-- C4: whenever the assembler succeeds on a parsed PKCS#12 bundle, no
certificate of the resulting extra chain is self-signed. -/
theorem build_acceptor_no_self_signed_in_extra_chain (p : ParsedPkcs12)
    (b : SslAcceptorBuilder) (h : build_acceptor_from_pkcs12 p = Except.ok b) :
    ∀ c ∈ b.extra_chain_certs, is_self_signed c = false := by
  unfold build_acceptor_from_pkcs12 at h
  split at h
  · cases h
  · split at h
    · cases h
    · cases h
      intro c hc
      unfold add_ca_certs_loop at hc
      split at hc
      · simp at hc
      · split at hc
        · simp at hc
        · split at hc
          next hss => simp at hc
          next hss =>
            simp at hc
            rcases hc with rfl
            exact Bool.of_not_eq_true hss

/-- A non-self-signed intermediate CA certificate (its self-issuer check
fails with `X509_V_ERR_UNABLE_TO_GET_ISSUER_CERT_LOCALLY` = 20). -/
def caCertA : X509 :=
  { subject_name := { entries := [{ nid := Nid.COMMONNAME, dataUtf8 := some "Intermediate A" }] },
    issuer_name := { entries := [{ nid := Nid.COMMONNAME, dataUtf8 := some "Root CA" }] },
    issued_self := X509VerifyResult.failed 20 }

/-- A second non-self-signed intermediate CA certificate. -/
def caCertB : X509 :=
  { subject_name := { entries := [{ nid := Nid.COMMONNAME, dataUtf8 := some "Intermediate B" }] },
    issuer_name := { entries := [{ nid := Nid.COMMONNAME, dataUtf8 := some "Intermediate A" }] },
    issued_self := X509VerifyResult.failed 20 }

/-- The bundle's end-entity (server) certificate. -/
def leafCert0 : X509 :=
  { subject_name := { entries := [{ nid := Nid.COMMONNAME, dataUtf8 := some "server" }] },
    issuer_name := { entries := [{ nid := Nid.COMMONNAME, dataUtf8 := some "Intermediate B" }] },
    issued_self := X509VerifyResult.failed 20 }

/-- The bundle's private key. -/
def pkey0 : PKey := { keyId := 1 }

/-- A parsed PKCS#12 bundle holding a key, a leaf and TWO non-self-signed
CA certificates on its stack. -/
def bundleTwoCAs : ParsedPkcs12 :=
  { pkey := some pkey0, cert := some leafCert0, ca := some [caCertA, caCertB] }

/-- The builder the assembler produces from `bundleTwoCAs`: only the
popped (last) CA certificate reaches the extra chain. -/
def builderTwoCAs : SslAcceptorBuilder :=
  { private_key := some pkey0, certificate := some leafCert0,
    extra_chain_certs := [caCertB] }

/-- Witness for C4: on `bundleTwoCAs` the assembler succeeds and the
member of the resulting extra chain is not self-signed. -/
theorem build_acceptor_no_self_signed_in_extra_chain_witness :
    is_self_signed caCertB = false :=
  build_acceptor_no_self_signed_in_extra_chain bundleTwoCAs builderTwoCAs rfl
    caCertB (by simp [builderTwoCAs])

/-- C5 evaluated at its failing input: both CA certificates of
`bundleTwoCAs` pass the non-self-signed filter, yet the assembler's output
chain holds only the stack's last certificate — `caCertA` is omitted,
because the `for` loop iterates the `Option<Stack<X509>>` (one iteration)
and `pop`s a single element instead of iterating the stack's elements. -/
theorem build_acceptor_adds_only_popped_ca :
    is_self_signed caCertA = false ∧ is_self_signed caCertB = false ∧
    build_acceptor_from_pkcs12 bundleTwoCAs = Except.ok builderTwoCAs ∧
    caCertA ∉ builderTwoCAs.extra_chain_certs := by
  refine ⟨rfl, rfl, rfl, by decide⟩

/-- C7: a parsed bundle without a private key fails with the missing-key
error; one with a key but no end-entity certificate fails with the
missing-certificate error; the two errors are distinct, and in both cases
the result is an error, never a builder. -/
theorem build_acceptor_missing_material_errors :
    (∀ p : ParsedPkcs12, p.pkey = none →
      build_acceptor_from_pkcs12 p =
        Except.error (BuildError.missing "PKCS#12 has no private key")) ∧
    (∀ p : ParsedPkcs12, ∀ k : PKey, p.pkey = some k → p.cert = none →
      build_acceptor_from_pkcs12 p =
        Except.error (BuildError.missing "PKCS#12 has no end-entity certificate")) ∧
    BuildError.missing "PKCS#12 has no private key" ≠
      BuildError.missing "PKCS#12 has no end-entity certificate" := by
  refine ⟨?_, ?_, by decide⟩
  · intro p hp
    unfold build_acceptor_from_pkcs12
    rw [hp]
  · intro p k hp hc
    unfold build_acceptor_from_pkcs12
    rw [hp, hc]

/-- A concrete I/O failure (e.g. connection reset). -/
def netErr0 : NetError := { code := 104 }

/-- A connection whose handshake and writes succeed but whose
post-handshake read fails. -/
def envReadFail : ConnEnv :=
  { handshake := Except.ok (), readRes := Except.error netErr0,
    writeResp := Except.ok (), writeBody := Except.ok (),
    shutdownRes := Except.ok () }

/-- Counterexample to C8 as stated: on `envReadFail` the post-handshake
read fails, yet the handler returns success (the read's error is discarded
by `unwrap_or(0)`), so a read failure is NOT returned to the caller. -/
theorem handle_conn_read_failure_not_an_error :
    envReadFail.readRes = Except.error netErr0 ∧
    handle_conn envReadFail = (Except.ok (), [connResp, connBody]) :=
  ⟨rfl, rfl⟩

/-- C8 (amended): the handler returns an error exactly when the handshake
or one of the two mandatory writes fails; a read failure is swallowed
(treated as a zero-length read), a shutdown failure is never surfaced, and
a zero-length or short read is not an error — the outcome is independent
of `readRes` and `shutdownRes`. -/
theorem handle_conn_error_propagation (env : ConnEnv) :
    exceptOk (handle_conn env).1 =
      (exceptOk env.handshake && exceptOk env.writeResp && exceptOk env.writeBody) := by
  rcases env with ⟨hs, rr, w1, w2, sd⟩
  cases hs <;> cases w1 <;> cases w2 <;> rfl

/-- C9: whenever the handshake and the two mandatory writes succeed, the
bytes written are exactly the fixed head (status line `HTTP/1.1 200 OK`,
`Content-Length: 3`, `Content-Type: text/plain`, `Connection: close`)
followed by the 3-byte body `ok\n`, whatever the request read returned. -/
theorem handle_conn_fixed_response (env : ConnEnv)
    (h1 : env.handshake = Except.ok ()) (h2 : env.writeResp = Except.ok ())
    (h3 : env.writeBody = Except.ok ()) :
    handle_conn env = (Except.ok (), [connResp, connBody]) ∧
    connResp =
      "HTTP/1.1 200 OK\r\nContent-Length: 3\r\nContent-Type: text/plain\r\nConnection: close\r\n\r\n" ∧
    connBody = "ok\n" := by
  refine ⟨?_, rfl, rfl⟩
  unfold handle_conn
  rw [h1, h2, h3]

/-- A connection whose socket operations all succeed except the final
shutdown, with a 42-byte request read. -/
def envAllOk : ConnEnv :=
  { handshake := Except.ok (), readRes := Except.ok 42,
    writeResp := Except.ok (), writeBody := Except.ok (),
    shutdownRes := Except.error netErr0 }

/-- Witness for C9: on `envAllOk` the handler succeeds and writes the
fixed head and body. -/
theorem handle_conn_fixed_response_witness :
    handle_conn envAllOk = (Except.ok (), [connResp, connBody]) ∧
    connResp =
      "HTTP/1.1 200 OK\r\nContent-Length: 3\r\nContent-Type: text/plain\r\nConnection: close\r\n\r\n" ∧
    connBody = "ok\n" :=
  handle_conn_fixed_response envAllOk rfl rfl rfl

end MTLS
